import Mathlib

/-!
Verification of the Prusa-Firmware menu engine excerpt: a shallow embedding of
`Timer.h` (wraparound-safe software timer), `menu.cpp` (menu navigation and
item-dispatch engine), and `eeprom.cpp` (persistent-storage bootstrap),
together with theorems settling the specification's claims about them.

Machine integers are modelled as `Nat`/`Int` with explicit reduction modulo
the relevant power of two where the C code wraps.  Screen function pointers
are modelled as opaque identities (`Nat`, with `0` standing for the null
pointer).  External collaborator calls (display output, tones, feedback,
command enqueueing) are modelled as event counters in the state, so that
claims about "an audible cue is issued" or "feedback is issued" are statable.
-/

/-! ## Timer (src/Firmware/Timer.h)

`Timer<T>` with `T` an unsigned integer of width `w` bits.  A value of type
`T` is a `Nat` below `2^w`; the wrapping addition `m_started + msPeriod` is
modelled as addition followed by `% 2^w`. -/

structure Timer where
  m_isRunning : Bool
  m_started : Nat
deriving DecidableEq

/-- Construction zeroes all members (`Timer() : m_isRunning(false), m_started() {}`). -/
def Timer.construct : Timer := { m_isRunning := false, m_started := 0 }

/-- `start()`: record current counter value, set running. `now` is the
current value of the millisecond counter, a `T` value. -/
def Timer.start (w : Nat) (_t : Timer) (now : Nat) : Timer :=
  { m_isRunning := true, m_started := now % 2^w }

/-- `stop()`: clear running without altering `m_started`. -/
def Timer.stop (t : Timer) : Timer := { t with m_isRunning := false }

/-- `expired(msPeriod)` from Timer.h lines 52-73.  `now` is the current
counter value (a `T` value, i.e. `now < 2^w`); returns the boolean result
together with the timer state after the call. -/
def Timer.expired (w : Nat) (t : Timer) (msPeriod now : Nat) : Bool × Timer :=
  if t.m_isRunning = false then (false, t)
  else
    let deadline := (t.m_started + msPeriod) % 2^w
    let e : Bool :=
      if t.m_started ≤ deadline then
        decide (deadline ≤ now) || decide (now < t.m_started)
      else
        decide (deadline ≤ now) && decide (now < t.m_started)
    (e, if e then { t with m_isRunning := false } else t)

/-! ## Persistent-storage bootstrap (src/Firmware/eeprom.cpp)

The EEPROM cells touched by `eeprom_init` are modelled as a record with one
field per tracked address.  Byte cells hold a `Nat` below `0x100`, word cells
a `Nat` below `0x10000`; the values read are whatever was stored, so the
fields are plain `Nat` and the sentinels are the literals `0xff`/`0xffff`.
The `Sheets` structure lives in a header that is not part of the excerpt, so
the profile-sheet names are modelled from the spec as a list of byte lists
(one list of name bytes per sheet slot). -/

structure EepromState where
  EEPROM_POWER_COUNT : Nat
  EEPROM_CRASH_COUNT_X : Nat
  EEPROM_CRASH_COUNT_Y : Nat
  EEPROM_FERROR_COUNT : Nat
  EEPROM_POWER_COUNT_TOT : Nat
  EEPROM_CRASH_COUNT_X_TOT : Nat
  EEPROM_CRASH_COUNT_Y_TOT : Nat
  EEPROM_FERROR_COUNT_TOT : Nat
  EEPROM_MMU_FAIL_TOT : Nat
  EEPROM_MMU_LOAD_FAIL_TOT : Nat
  EEPROM_MMU_FAIL : Nat
  EEPROM_MMU_LOAD_FAIL : Nat
  active_sheet : Nat
  sheet_names : List (List Nat)
deriving DecidableEq

/-- One `if (eeprom_read_byte(addr) == 0xff) write(addr, 0)` step of
`eeprom_init` for a byte cell. -/
def eeprom_init_byte (v : Nat) : Nat := if v = 0xff then 0 else v

/-- One `if (eeprom_read_word(addr) == 0xffff) write(addr, 0)` step of
`eeprom_init` for a word cell. -/
def eeprom_init_word (v : Nat) : Nat := if v = 0xffff then 0 else v

/-- The inner loop of `eeprom_init` over the bytes of one sheet name:
`is_uninitialized` stays true iff every byte reads `0xff`
(`eeprom_is_uninitialized<char>`). -/
def sheet_is_uninitialized (name : List Nat) : Bool :=
  name.all (fun b => b = 0xff)

/-- The per-sheet body of the `eeprom_init` loop: when every byte of the name
is erased, write `i + '1'` (`0x31 + i`, truncated to a char) to byte 0 and a
null terminator to byte 1, leaving the remaining bytes as they were;
otherwise leave the name alone. -/
def sheet_name_init (i : Nat) (name : List Nat) : List Nat :=
  if sheet_is_uninitialized name then (name.set 0 ((0x31 + i) % 256)).set 1 0
  else name

/-- The `for (i = 0; i < sheet_count; ++i)` loop of `eeprom_init`. -/
def sheets_init : Nat → List (List Nat) → List (List Nat)
  | _, [] => []
  | i, n :: rest => sheet_name_init i n :: sheets_init (i + 1) rest

/-- `eeprom_init` from eeprom.cpp lines 49-79.  `check_babystep()` is an
external collaborator with no effect on the cells modelled here. -/
def eeprom_init (e : EepromState) : EepromState :=
  { EEPROM_POWER_COUNT := eeprom_init_byte e.EEPROM_POWER_COUNT
    EEPROM_CRASH_COUNT_X := eeprom_init_byte e.EEPROM_CRASH_COUNT_X
    EEPROM_CRASH_COUNT_Y := eeprom_init_byte e.EEPROM_CRASH_COUNT_Y
    EEPROM_FERROR_COUNT := eeprom_init_byte e.EEPROM_FERROR_COUNT
    EEPROM_POWER_COUNT_TOT := eeprom_init_word e.EEPROM_POWER_COUNT_TOT
    EEPROM_CRASH_COUNT_X_TOT := eeprom_init_word e.EEPROM_CRASH_COUNT_X_TOT
    EEPROM_CRASH_COUNT_Y_TOT := eeprom_init_word e.EEPROM_CRASH_COUNT_Y_TOT
    EEPROM_FERROR_COUNT_TOT := eeprom_init_word e.EEPROM_FERROR_COUNT_TOT
    EEPROM_MMU_FAIL_TOT := eeprom_init_word e.EEPROM_MMU_FAIL_TOT
    EEPROM_MMU_LOAD_FAIL_TOT := eeprom_init_word e.EEPROM_MMU_LOAD_FAIL_TOT
    EEPROM_MMU_FAIL := eeprom_init_byte e.EEPROM_MMU_FAIL
    EEPROM_MMU_LOAD_FAIL := eeprom_init_byte e.EEPROM_MMU_LOAD_FAIL
    active_sheet := eeprom_init_byte e.active_sheet
    sheet_names := sheets_init 0 e.sheet_names }

/-- Concrete EEPROM image used to exhibit the bootstrap behaviour: an erased
power counter, a crash counter already holding 42, erased and partially
erased word counters, and three sheet-name slots: fully erased, first byte
only erased, last byte only erased. -/
def eepromExample : EepromState :=
  { EEPROM_POWER_COUNT := 0xff
    EEPROM_CRASH_COUNT_X := 42
    EEPROM_CRASH_COUNT_Y := 0xff
    EEPROM_FERROR_COUNT := 7
    EEPROM_POWER_COUNT_TOT := 0xffff
    EEPROM_CRASH_COUNT_X_TOT := 42
    EEPROM_CRASH_COUNT_Y_TOT := 0xffff
    EEPROM_FERROR_COUNT_TOT := 123
    EEPROM_MMU_FAIL_TOT := 0xffff
    EEPROM_MMU_LOAD_FAIL_TOT := 0
    EEPROM_MMU_FAIL := 0xff
    EEPROM_MMU_LOAD_FAIL := 3
    active_sheet := 0xff
    sheet_names := [[0xff, 0xff], [0xff, 0x41], [0x33, 0xff]] }

/-! ## Menu engine (src/Firmware/menu.cpp)

Screen function pointers (`menu_func_t`) are modelled as opaque identities
of type `Nat`, with `0` standing for the null pointer.  `lcd_encoder` is an
`int32_t`, modelled as `Int`; the `uint8_t` globals are `Nat` values kept
below `256` by explicit `% 256` at every mutation the C code performs on
them.  The external collaborators are modelled as event counters:
`fb` counts `lcd_quick_feedback()` calls, `beeps` counts the
`_tone/_delay/_noTone` error-cue sequences, `retfb` counts
`lcd_beeper_quick_feedback()` calls from `menu_item_ret`, and `cmds` counts
`enquecommand_P` calls.  The display itself is a stateless sink and is not
modelled.  `menu_goto`'s `encoder` parameter is `uint32_t` in the source and
is immediately stored into the `int32_t` `lcd_encoder`; every caller inside
the excerpt passes a value that round-trips through that conversion, so the
parameter is modelled directly as the `Int` it becomes. -/

def MENU_DEPTH_MAX : Nat := 6

/-- One frame of the menu stack: `menu_record_t`.  The record type is
declared in `menu.h`, which is not part of the excerpt; modelled from the
spec: a MenuStack frame is a pair of the screen reference and the integer
cursor/encoder position at time of push. -/
structure MenuRecord where
  menu : Nat
  position : Int
deriving DecidableEq

/-- The global state of the menu engine: the file-scope variables of
`menu.cpp` plus the externally owned `lcd_encoder`, `lcd_draw_update`,
`lcd_update_enabled` and `lcd_button_pressed`, plus the collaborator event
counters. -/
structure MenuState where
  menu_menu : Nat
  lcd_encoder : Int
  menu_data : List Nat
  menu_stack : List MenuRecord
  menu_depth : Nat
  menu_line : Nat
  menu_item : Nat
  menu_row : Nat
  menu_top : Nat
  menu_clicked : Bool
  lcd_draw_update : Nat
  lcd_update_enabled : Nat
  lcd_button_pressed : Bool
  fb : Nat
  beeps : Nat
  retfb : Nat
  cmds : Nat
deriving DecidableEq

/-- `menu_goto` from menu.cpp lines 45-63.  The `cli`/`sei` interrupt
bracketing is a concurrency concern outside the sequential model. -/
def menu_goto (m : MenuState) (menu : Nat) (encoder : Int)
    (feedback : Bool) (reset_menu_state : Bool) : MenuState :=
  if m.menu_menu ≠ menu then
    let m1 := { m with menu_menu := menu, lcd_encoder := encoder }
    let m2 := if reset_menu_state then
        { m1 with menu_data := List.replicate m1.menu_data.length 0 }
      else m1
    if feedback then { m2 with fb := m2.fb + 1 } else m2
  else m

/-- `menu_start` from menu.cpp lines 65-79.  `clicked` is the value of the
external `LCD_CLICKED` latch this frame. -/
def menu_start (clicked : Bool) (m : MenuState) : MenuState :=
  let m1 := if m.lcd_encoder > 0x8000 then { m with lcd_encoder := 0 } else m
  let m2 := if m1.lcd_encoder < 0 then
      { m1 with lcd_encoder := 0, beeps := m1.beeps + 1 }
    else m1
  let m3 := if m2.lcd_encoder < (m2.menu_top : Int) then
      { m2 with menu_top := (m2.lcd_encoder % 256).toNat }
    else m2
  { m3 with menu_line := m3.menu_top, menu_clicked := clicked }

/-- `menu_end` from menu.cpp lines 81-97, parametric in the display height
`H` (`LCD_HEIGHT`, declared in a header outside the excerpt). -/
def menu_end (H : Nat) (m : MenuState) : MenuState :=
  let m1 := if m.lcd_encoder ≥ (m.menu_item : Int) then
      { m with lcd_encoder := (m.menu_item : Int) - 1, beeps := m.beeps + 1 }
    else m
  if (m1.lcd_encoder % 256).toNat ≥ m1.menu_top + H then
    let t := ((m1.lcd_encoder - (H : Int) + 1) % 256).toNat
    { m1 with menu_top := t, lcd_draw_update := 1,
              menu_line := (t + 255) % 256, menu_row := 255 }
  else m1

/-- `menu_back(uint8_t nLevel)` from menu.cpp lines 99-103. -/
def menu_back (m : MenuState) (nLevel : Nat) : MenuState :=
  let d := if m.menu_depth > nLevel then m.menu_depth - nLevel else 0
  let m1 := { m with menu_depth := d }
  let r := m1.menu_stack.getD d { menu := 0, position := 0 }
  menu_goto m1 r.menu r.position true true

/-- The parameterless `menu_back()` overload from menu.cpp lines 105-108. -/
def menu_back1 (m : MenuState) : MenuState := menu_back m 1

/-- `menu_back_no_reset` from menu.cpp lines 110-117. -/
def menu_back_no_reset (m : MenuState) : MenuState :=
  if m.menu_depth > 0 then
    let d := m.menu_depth - 1
    let m1 := { m with menu_depth := d }
    let r := m1.menu_stack.getD d { menu := 0, position := 0 }
    menu_goto m1 r.menu r.position true false
  else m

/-- `menu_submenu` from menu.cpp lines 134-142. -/
def menu_submenu (m : MenuState) (submenu : Nat) : MenuState :=
  if m.menu_depth < MENU_DEPTH_MAX then
    let m1 := { m with
      menu_stack := m.menu_stack.set m.menu_depth
        { menu := m.menu_menu, position := m.lcd_encoder },
      menu_depth := m.menu_depth + 1 }
    menu_goto m1 submenu 0 true true
  else m

/-- `menu_submenu_no_reset` from menu.cpp lines 144-152. -/
def menu_submenu_no_reset (m : MenuState) (submenu : Nat) : MenuState :=
  if m.menu_depth < MENU_DEPTH_MAX then
    let m1 := { m with
      menu_stack := m.menu_stack.set m.menu_depth
        { menu := m.menu_menu, position := m.lcd_encoder },
      menu_depth := m.menu_depth + 1 }
    menu_goto m1 submenu 0 true false
  else m

/-- `menu_item_ret` from menu.cpp lines 154-160: beeper feedback, force
full redraw, clear the button latch, return 1. -/
def menu_item_ret (m : MenuState) : MenuState × Nat :=
  ({ m with retfb := m.retfb + 1, lcd_draw_update := 2,
            lcd_button_pressed := false }, 1)

/-- The `menu_item++` slot advance shared by every item primitive
(`menu_item` is a `uint8_t`). -/
def menu_item_inc (m : MenuState) : MenuState :=
  { m with menu_item := (m.menu_item + 1) % 256 }

/-- The activation condition shared by the item primitives: the item owns
the slot under scrutiny this frame (`menu_item == menu_line`), a click was
latched, and the cursor is on this slot (`lcd_encoder == menu_item`). -/
def menu_item_activated (m : MenuState) : Prop :=
  m.menu_item = m.menu_line ∧ m.menu_clicked = true ∧
    m.lcd_encoder = (m.menu_item : Int)

instance (m : MenuState) : Decidable (menu_item_activated m) := by
  unfold menu_item_activated
  infer_instance

/-- `menu_item_dummy` from menu.cpp lines 206-209. -/
def menu_item_dummy (m : MenuState) : MenuState := menu_item_inc m

/-- `menu_item_text_P` from menu.cpp lines 211-221.  Drawing writes only to
the display sink. -/
def menu_item_text_P (m : MenuState) : MenuState × Nat :=
  if m.menu_item = m.menu_line then
    if m.menu_clicked = true ∧ m.lcd_encoder = (m.menu_item : Int) then
      menu_item_ret m
    else (menu_item_inc m, 0)
  else (menu_item_inc m, 0)

/-- `menu_item_submenu_P` from menu.cpp lines 223-236. -/
def menu_item_submenu_P (m : MenuState) (submenu : Nat) : MenuState × Nat :=
  if m.menu_item = m.menu_line then
    if m.menu_clicked = true ∧ m.lcd_encoder = (m.menu_item : Int) then
      menu_item_ret (menu_submenu m submenu)
    else (menu_item_inc m, 0)
  else (menu_item_inc m, 0)

/-- `menu_item_back_P` from menu.cpp lines 238-251. -/
def menu_item_back_P (m : MenuState) : MenuState × Nat :=
  if m.menu_item = m.menu_line then
    if m.menu_clicked = true ∧ m.lcd_encoder = (m.menu_item : Int) then
      menu_item_ret (menu_back1 m)
    else (menu_item_inc m, 0)
  else (menu_item_inc m, 0)

/-- `menu_item_function_P` from menu.cpp lines 253-270.  The invoked
callback is an arbitrary effect on the engine state (`func = some f`), or
the null pointer (`func = none`, skipped by the `if (func)` guard);
`lcd_consume_click` only touches unmodelled display-driver state. -/
def menu_item_function_P (m : MenuState) (func : Option (MenuState → MenuState)) :
    MenuState × Nat :=
  if m.menu_item = m.menu_line then
    if m.menu_clicked = true ∧ m.lcd_encoder = (m.menu_item : Int) then
      let m1 := { m with menu_clicked := false, lcd_update_enabled := 0 }
      let m2 := match func with
        | some f => f m1
        | none => m1
      menu_item_ret { m2 with lcd_update_enabled := 1 }
    else (menu_item_inc m, 0)
  else (menu_item_inc m, 0)

/-- The `menu_item_function_P` overload taking a parameter, menu.cpp lines
281-298; the parameter is baked into the callback effect. -/
def menu_item_function_param_P (m : MenuState)
    (func : Option (MenuState → MenuState)) : MenuState × Nat :=
  menu_item_function_P m func

/-- `menu_item_gcode_P` from menu.cpp lines 300-313.  `hasGcode` is the
null-check `if (str_gcode)`; enqueueing is the `cmds` event counter. -/
def menu_item_gcode_P (m : MenuState) (hasGcode : Bool) : MenuState × Nat :=
  if m.menu_item = m.menu_line then
    if m.menu_clicked = true ∧ m.lcd_encoder = (m.menu_item : Int) then
      menu_item_ret (if hasGcode then { m with cmds := m.cmds + 1 } else m)
    else (menu_item_inc m, 0)
  else (menu_item_inc m, 0)

/-! ## Numeric editor (src/Firmware/menu.cpp lines 397-413)

The `menu_data_edit_t` record is declared in `menu.h`, which is not part of
the excerpt.  Modelled from the spec: the ScratchUnion edit record holds a
display label reference, the borrowed address of the external value being
edited, and the minimum and maximum bounds.  The label and target address
are opaque identities here; the bounds are the `int16_t` values `min_val`
and `max_val` stored by `menu_item_edit_P`. -/

structure menu_data_edit_t where
  editLabel : Nat
  editValue : Nat
  minEditValue : Int
  maxEditValue : Int
deriving DecidableEq

/-- One invocation of the editor screen `_menu_edit_P<T>` (menu.cpp lines
397-413), restricted to its effect on the shared cursor and on the borrowed
target: given the edit record, the pending-redraw flag and the click latch,
it returns the cursor value after the call together with `some v` when the
click path stored `v` through `editValue` (the subsequent
`menu_back_no_reset` call acts on the navigation state, settled separately).
-/
def _menu_edit_P (md : menu_data_edit_t) (lcd_draw_update : Nat)
    (clicked : Bool) (lcd_encoder : Int) : Int × Option Int :=
  let enc :=
    if lcd_draw_update ≠ 0 then
      let e1 := if lcd_encoder < md.minEditValue then md.minEditValue else lcd_encoder
      if e1 > md.maxEditValue then md.maxEditValue else e1
    else lcd_encoder
  (enc, if clicked then some enc else none)

/-! ## Concrete states for witnesses and counterexamples -/

/-- A baseline menu state: empty root screen history, all counters zero. -/
def menuState0 : MenuState :=
  { menu_menu := 1
    lcd_encoder := 0
    menu_data := [0, 0, 0, 0]
    menu_stack := List.replicate MENU_DEPTH_MAX { menu := 0, position := 0 }
    menu_depth := 0
    menu_line := 0
    menu_item := 0
    menu_row := 0
    menu_top := 0
    menu_clicked := false
    lcd_draw_update := 0
    lcd_update_enabled := 1
    lcd_button_pressed := false
    fb := 0
    beeps := 0
    retfb := 0
    cmds := 0 }

/-- The cursor value after the clamp phase of `menu_end` (the value
`lcd_encoder` holds once the `lcd_encoder >= menu_item` branch has run). -/
def menu_end_enc (m : MenuState) : Int :=
  if m.lcd_encoder ≥ (m.menu_item : Int) then (m.menu_item : Int) - 1
  else m.lcd_encoder

/-- A state in which slot 0 is under the cursor and a click is latched, so
the first item primitive called this frame activates. -/
def menuStateClick : MenuState := { menuState0 with menu_clicked := true }

/-- Depth-1 state whose single stack frame names the screen that is already
current (reachable by activating a submenu item that points at the active
screen, see claim C10): frame `{screen 7, cursor 5}`, current screen 7,
cursor 9, nonzero scratch. -/
def menuStateBackNoop : MenuState :=
  { menuState0 with
    menu_menu := 7
    lcd_encoder := 9
    menu_data := [1, 1, 1, 1]
    menu_stack := { menu := 7, position := 5 } ::
      List.replicate 5 { menu := 0, position := 0 }
    menu_depth := 1 }

/-- Depth-1 state whose stack frame names a screen different from the
current one: frame `{screen 2, cursor 5}`, current screen 7, cursor 9. -/
def menuStateBackTrans : MenuState :=
  { menuStateBackNoop with
    menu_stack := { menu := 2, position := 5 } ::
      List.replicate 5 { menu := 0, position := 0 } }

/-- A frame end state: 3 item slots were assigned, the cursor overran to 5,
no redraw is pending. -/
def menuStateOverrun : MenuState :=
  { menuState0 with menu_item := 3, lcd_encoder := 5 }

/-- A frame end state: 10 item slots assigned, cursor at 6, window top 0 —
the cursor sits below a 4-row window. -/
def menuStateScroll : MenuState :=
  { menuState0 with menu_item := 10, lcd_encoder := 6 }

/-- A frame start state with a huge positive encoder excursion. -/
def menuStateHuge : MenuState := { menuState0 with lcd_encoder := 0x8001 }

/-- A frame start state with a negative encoder excursion. -/
def menuStateNeg : MenuState := { menuState0 with lcd_encoder := -3 }

/-- Claim C1: `expired(p)` returns false when the timer is not running (and
leaves the state unchanged).  When running, with `deadline = started + p` in
wrapping arithmetic: if `started ≤ deadline`, expired returns true iff
`now ≥ deadline` or `now < started`; if the deadline wrapped past `started`,
expired returns true iff `now ≥ deadline` and `now < started`.  Whenever
expired returns true it clears the running flag, so every subsequent call
(with any period and any time) returns false and leaves the state fixed,
until `start()` is called again. -/
theorem C1_timer_expired (w : Nat) (t : Timer) (p now : Nat) :
    (t.m_isRunning = false →
      (Timer.expired w t p now).1 = false ∧ (Timer.expired w t p now).2 = t) ∧
    (t.m_isRunning = true →
      ((t.m_started ≤ (t.m_started + p) % 2^w →
        ((Timer.expired w t p now).1 = true ↔
          ((t.m_started + p) % 2^w ≤ now ∨ now < t.m_started))) ∧
       ((t.m_started + p) % 2^w < t.m_started →
        ((Timer.expired w t p now).1 = true ↔
          ((t.m_started + p) % 2^w ≤ now ∧ now < t.m_started))))) ∧
    ((Timer.expired w t p now).1 = true →
      ∀ p2 now2,
        (Timer.expired w (Timer.expired w t p now).2 p2 now2).1 = false ∧
        (Timer.expired w (Timer.expired w t p now).2 p2 now2).2
          = (Timer.expired w t p now).2) := by
  obtain ⟨run, st⟩ := t
  cases run with
  | false => simp [Timer.expired]
  | true =>
    refine ⟨by simp [Timer.expired], ?_, ?_⟩
    · intro _
      constructor
      · intro hle
        simp [Timer.expired, hle]
      · intro hlt
        simp [Timer.expired, Nat.not_le.mpr hlt]
    · intro hexp p2 now2
      simp only [Timer.expired] at hexp ⊢
      split at hexp
      · simp_all
      · simp only at hexp
        rcases h : (if st ≤ (st + p) % 2 ^ w then
            (decide ((st + p) % 2 ^ w ≤ now) || decide (now < st))
          else (decide ((st + p) % 2 ^ w ≤ now) && decide (now < st))) with _ | _
        · simp [h] at hexp
        · simp [h]

/-- Witness for C1 at the counter boundary: width 8, started 250, period 10,
now 5.  The deadline `(250+10) % 256 = 4` wrapped past `started`, and
`4 ≤ 5 < 250` holds, so the timer expires; a second call after the expiry
returns false. -/
theorem C1_witness :
    (Timer.expired 8 { m_isRunning := true, m_started := 250 } 10 5).1 = true ∧
    (Timer.expired 8
      (Timer.expired 8 { m_isRunning := true, m_started := 250 } 10 5).2 10 20).1
        = false := by
  have h := C1_timer_expired 8 { m_isRunning := true, m_started := 250 } 10 5
  have h1 : (Timer.expired 8 { m_isRunning := true, m_started := 250 } 10 5).1 = true :=
    ((h.2.1 rfl).2 (by decide)).mpr (by decide)
  exact ⟨h1, (h.2.2 h1 10 20).1⟩

/-! ## Claim C7: eeprom_init -/

theorem eeprom_init_byte_spec (v : Nat) :
    (v = 0xff → eeprom_init_byte v = 0) ∧ (v ≠ 0xff → eeprom_init_byte v = v) := by
  unfold eeprom_init_byte
  split_ifs <;> simp_all

theorem eeprom_init_word_spec (v : Nat) :
    (v = 0xffff → eeprom_init_word v = 0) ∧ (v ≠ 0xffff → eeprom_init_word v = v) := by
  unfold eeprom_init_word
  split_ifs <;> simp_all

theorem eeprom_init_byte_idem (v : Nat) :
    eeprom_init_byte (eeprom_init_byte v) = eeprom_init_byte v := by
  unfold eeprom_init_byte
  split_ifs <;> simp_all

theorem eeprom_init_word_idem (v : Nat) :
    eeprom_init_word (eeprom_init_word v) = eeprom_init_word v := by
  unfold eeprom_init_word
  split_ifs <;> simp_all

theorem sheet_name_init_idem (i : Nat) (n : List Nat) :
    sheet_name_init i (sheet_name_init i n) = sheet_name_init i n := by
  by_cases h : sheet_is_uninitialized n = true
  · have hn : sheet_name_init i n = (n.set 0 ((0x31 + i) % 256)).set 1 0 := by
      unfold sheet_name_init
      rw [if_pos h]
    rw [hn]
    match n with
    | [] => rfl
    | [a] => simp [sheet_name_init, sheet_is_uninitialized, List.set]
    | a :: b :: t => simp [sheet_name_init, sheet_is_uninitialized, List.set]
  · have hn : sheet_name_init i n = n := by
      unfold sheet_name_init
      rw [if_neg h]
    rw [hn, hn]

theorem sheets_init_idem (i : Nat) (l : List (List Nat)) :
    sheets_init i (sheets_init i l) = sheets_init i l := by
  induction l generalizing i with
  | nil => rfl
  | cons n rest ih => simp [sheets_init, sheet_name_init_idem, ih]

/-- Claim C7: `eeprom_init` writes 0 to a tracked counter field iff its
stored value equals the erased sentinel (`0xff` for byte fields, `0xffff`
for word fields) and leaves any other stored value untouched; it writes the
default profile-sheet name (the character value `'1' + slot index` followed
by a null terminator) iff every byte of that name slot equals `0xff`, so a
name with only some bytes erased is not overwritten; and running
`eeprom_init` a second time changes nothing. -/
theorem C7_eeprom_init (e : EepromState) :
    ((e.EEPROM_POWER_COUNT = 0xff → (eeprom_init e).EEPROM_POWER_COUNT = 0) ∧
     (e.EEPROM_POWER_COUNT ≠ 0xff →
       (eeprom_init e).EEPROM_POWER_COUNT = e.EEPROM_POWER_COUNT)) ∧
    ((e.EEPROM_CRASH_COUNT_X = 0xff → (eeprom_init e).EEPROM_CRASH_COUNT_X = 0) ∧
     (e.EEPROM_CRASH_COUNT_X ≠ 0xff →
       (eeprom_init e).EEPROM_CRASH_COUNT_X = e.EEPROM_CRASH_COUNT_X)) ∧
    ((e.EEPROM_CRASH_COUNT_Y = 0xff → (eeprom_init e).EEPROM_CRASH_COUNT_Y = 0) ∧
     (e.EEPROM_CRASH_COUNT_Y ≠ 0xff →
       (eeprom_init e).EEPROM_CRASH_COUNT_Y = e.EEPROM_CRASH_COUNT_Y)) ∧
    ((e.EEPROM_FERROR_COUNT = 0xff → (eeprom_init e).EEPROM_FERROR_COUNT = 0) ∧
     (e.EEPROM_FERROR_COUNT ≠ 0xff →
       (eeprom_init e).EEPROM_FERROR_COUNT = e.EEPROM_FERROR_COUNT)) ∧
    ((e.EEPROM_POWER_COUNT_TOT = 0xffff → (eeprom_init e).EEPROM_POWER_COUNT_TOT = 0) ∧
     (e.EEPROM_POWER_COUNT_TOT ≠ 0xffff →
       (eeprom_init e).EEPROM_POWER_COUNT_TOT = e.EEPROM_POWER_COUNT_TOT)) ∧
    ((e.EEPROM_CRASH_COUNT_X_TOT = 0xffff →
       (eeprom_init e).EEPROM_CRASH_COUNT_X_TOT = 0) ∧
     (e.EEPROM_CRASH_COUNT_X_TOT ≠ 0xffff →
       (eeprom_init e).EEPROM_CRASH_COUNT_X_TOT = e.EEPROM_CRASH_COUNT_X_TOT)) ∧
    ((e.EEPROM_CRASH_COUNT_Y_TOT = 0xffff →
       (eeprom_init e).EEPROM_CRASH_COUNT_Y_TOT = 0) ∧
     (e.EEPROM_CRASH_COUNT_Y_TOT ≠ 0xffff →
       (eeprom_init e).EEPROM_CRASH_COUNT_Y_TOT = e.EEPROM_CRASH_COUNT_Y_TOT)) ∧
    ((e.EEPROM_FERROR_COUNT_TOT = 0xffff → (eeprom_init e).EEPROM_FERROR_COUNT_TOT = 0) ∧
     (e.EEPROM_FERROR_COUNT_TOT ≠ 0xffff →
       (eeprom_init e).EEPROM_FERROR_COUNT_TOT = e.EEPROM_FERROR_COUNT_TOT)) ∧
    ((e.EEPROM_MMU_FAIL_TOT = 0xffff → (eeprom_init e).EEPROM_MMU_FAIL_TOT = 0) ∧
     (e.EEPROM_MMU_FAIL_TOT ≠ 0xffff →
       (eeprom_init e).EEPROM_MMU_FAIL_TOT = e.EEPROM_MMU_FAIL_TOT)) ∧
    ((e.EEPROM_MMU_LOAD_FAIL_TOT = 0xffff →
       (eeprom_init e).EEPROM_MMU_LOAD_FAIL_TOT = 0) ∧
     (e.EEPROM_MMU_LOAD_FAIL_TOT ≠ 0xffff →
       (eeprom_init e).EEPROM_MMU_LOAD_FAIL_TOT = e.EEPROM_MMU_LOAD_FAIL_TOT)) ∧
    ((e.EEPROM_MMU_FAIL = 0xff → (eeprom_init e).EEPROM_MMU_FAIL = 0) ∧
     (e.EEPROM_MMU_FAIL ≠ 0xff → (eeprom_init e).EEPROM_MMU_FAIL = e.EEPROM_MMU_FAIL)) ∧
    ((e.EEPROM_MMU_LOAD_FAIL = 0xff → (eeprom_init e).EEPROM_MMU_LOAD_FAIL = 0) ∧
     (e.EEPROM_MMU_LOAD_FAIL ≠ 0xff →
       (eeprom_init e).EEPROM_MMU_LOAD_FAIL = e.EEPROM_MMU_LOAD_FAIL)) ∧
    ((e.active_sheet = 0xff → (eeprom_init e).active_sheet = 0) ∧
     (e.active_sheet ≠ 0xff → (eeprom_init e).active_sheet = e.active_sheet)) ∧
    (∀ i n, (sheet_is_uninitialized n = true →
        sheet_name_init i n = (n.set 0 ((0x31 + i) % 256)).set 1 0) ∧
      (sheet_is_uninitialized n = false → sheet_name_init i n = n)) ∧
    (eeprom_init e).sheet_names = sheets_init 0 e.sheet_names ∧
    eeprom_init (eeprom_init e) = eeprom_init e := by
  refine ⟨eeprom_init_byte_spec _, eeprom_init_byte_spec _, eeprom_init_byte_spec _,
    eeprom_init_byte_spec _, eeprom_init_word_spec _, eeprom_init_word_spec _,
    eeprom_init_word_spec _, eeprom_init_word_spec _, eeprom_init_word_spec _,
    eeprom_init_word_spec _, eeprom_init_byte_spec _, eeprom_init_byte_spec _,
    eeprom_init_byte_spec _, ?_, rfl, ?_⟩
  · intro i n
    constructor
    · intro h
      rw [sheet_name_init, if_pos h]
    · intro h
      rw [sheet_name_init, if_neg (by simp [h])]
  · simp [eeprom_init, eeprom_init_byte_idem, eeprom_init_word_idem, sheets_init_idem]

/-- Witness for C7 on `eepromExample`: the erased power counter becomes 0,
the crash counter holding 42 is untouched, the name slot with only its first
byte erased is not overwritten, and a second run changes nothing. -/
theorem C7_witness :
    (eeprom_init eepromExample).EEPROM_POWER_COUNT = 0 ∧
    (eeprom_init eepromExample).EEPROM_CRASH_COUNT_X = 42 ∧
    sheet_name_init 1 [0xff, 0x41] = [0xff, 0x41] ∧
    eeprom_init (eeprom_init eepromExample) = eeprom_init eepromExample := by
  obtain ⟨h1, h2, h3, h4, h5, h6, h7, h8, h9, h10, h11, h12, h13, hsheet, hnames, hidem⟩ :=
    C7_eeprom_init eepromExample
  exact ⟨h1.1 rfl, h2.2 (by decide), (hsheet 1 [0xff, 0x41]).2 (by decide), hidem⟩

/-! ## Claim C4: menu_goto idempotent re-entry -/

/-- Claim C4: `menu_goto` called with the screen that is already current is
a complete no-op — the scratch union is not reset, no feedback is issued,
the stack and depth are unchanged, and the cursor is not modified —
regardless of the encoder, feedback and reset arguments.  Called with a
different screen it transitions: sets the current screen and the cursor,
clears scratch if requested, and issues feedback if requested. -/
theorem C4_menu_goto (m : MenuState) (menu : Nat) (encoder : Int)
    (feedback reset_menu_state : Bool) :
    (menu = m.menu_menu → menu_goto m menu encoder feedback reset_menu_state = m) ∧
    (menu ≠ m.menu_menu →
      (menu_goto m menu encoder feedback reset_menu_state).menu_menu = menu ∧
      (menu_goto m menu encoder feedback reset_menu_state).lcd_encoder = encoder ∧
      (reset_menu_state = true →
        (menu_goto m menu encoder feedback reset_menu_state).menu_data
          = List.replicate m.menu_data.length 0) ∧
      (reset_menu_state = false →
        (menu_goto m menu encoder feedback reset_menu_state).menu_data = m.menu_data) ∧
      (feedback = true →
        (menu_goto m menu encoder feedback reset_menu_state).fb = m.fb + 1) ∧
      (feedback = false →
        (menu_goto m menu encoder feedback reset_menu_state).fb = m.fb) ∧
      (menu_goto m menu encoder feedback reset_menu_state).menu_stack = m.menu_stack ∧
      (menu_goto m menu encoder feedback reset_menu_state).menu_depth = m.menu_depth) := by
  constructor
  · intro h
    subst h
    simp [menu_goto]
  · intro h
    have hne : m.menu_menu ≠ menu := fun hh => h hh.symm
    cases feedback <;> cases reset_menu_state <;> simp [menu_goto, hne]

/-- Witness for C4: re-entering the current screen (identity 1) of
`menuState0` changes nothing, even with feedback and reset requested; going
to the different screen 2 sets screen and cursor. -/
theorem C4_witness :
    menu_goto menuState0 1 5 true true = menuState0 ∧
    (menu_goto menuState0 2 5 true true).menu_menu = 2 ∧
    (menu_goto menuState0 2 5 true true).lcd_encoder = 5 ∧
    (menu_goto menuState0 2 5 true true).fb = menuState0.fb + 1 := by
  have h1 := (C4_menu_goto menuState0 1 5 true true).1 rfl
  have h2 := (C4_menu_goto menuState0 2 5 true true).2 (by decide)
  exact ⟨h1, h2.1, h2.2.1, h2.2.2.2.2.1 rfl⟩

/-! ## Claim C5: menu_submenu at capacity -/

/-- Claim C5: calling `menu_submenu` when the stack is at capacity
(`menu_depth = MENU_DEPTH_MAX = 6`) leaves the whole state unchanged — in
particular the stack contents, the depth, the cursor, the current screen and
the scratch union — and issues no feedback. -/
theorem C5_menu_submenu_at_capacity (m : MenuState) (submenu : Nat)
    (h : m.menu_depth = MENU_DEPTH_MAX) :
    menu_submenu m submenu = m := by
  unfold menu_submenu
  rw [if_neg]
  omega

/-- Witness for C5: pushing screen 9 onto a depth-6 state is a no-op. -/
theorem C5_witness :
    menu_submenu { menuState0 with menu_depth := 6 } 9
      = { menuState0 with menu_depth := 6 } :=
  C5_menu_submenu_at_capacity { menuState0 with menu_depth := 6 } 9 rfl

/-! ## Claim C10: menu_submenu onto the currently active screen -/

/-- Claim C10: activating `menu_submenu` (or `menu_submenu_no_reset`) with
the currently active screen while the depth is below capacity still pushes a
frame `{current screen, current cursor}` and increments the depth, yet the
current screen, the cursor and the scratch union remain unchanged and no
feedback is issued, because the inner `menu_goto` sees an identical screen
and does nothing. -/
theorem C10_submenu_self (m : MenuState) (h : m.menu_depth < MENU_DEPTH_MAX) :
    menu_submenu m m.menu_menu =
      { m with
        menu_stack := m.menu_stack.set m.menu_depth
          { menu := m.menu_menu, position := m.lcd_encoder },
        menu_depth := m.menu_depth + 1 } ∧
    menu_submenu_no_reset m m.menu_menu =
      { m with
        menu_stack := m.menu_stack.set m.menu_depth
          { menu := m.menu_menu, position := m.lcd_encoder },
        menu_depth := m.menu_depth + 1 } := by
  constructor
  · unfold menu_submenu
    rw [if_pos h]
    simp [menu_goto]
  · unfold menu_submenu_no_reset
    rw [if_pos h]
    simp [menu_goto]

/-- Witness for C10: pushing the active screen 1 of `menuState0` (depth 0)
grows the stack to depth 1 while screen, cursor and scratch stay put. -/
theorem C10_witness :
    menu_submenu menuState0 1 =
      { menuState0 with
        menu_stack := menuState0.menu_stack.set 0 { menu := 1, position := 0 },
        menu_depth := 1 } :=
  (C10_submenu_self menuState0 (by decide)).1

/-! ## Claim C6: menu_back -/

/-- Counterexample to claim C6 as stated: `menu_back(1)` from depth 1 in
`menuStateBackNoop` — whose stack frame 0 stores `{screen 7, cursor 5}`
while screen 7 is already current — sets the depth to 0 but does NOT restore
the saved cursor 5 (the cursor stays 9), does NOT clear the scratch union
and issues no feedback, because the inner `menu_goto` sees the identical
screen and does nothing. -/
theorem C6_counterexample :
    (menu_back menuStateBackNoop 1).menu_depth = 0 ∧
    (menu_back menuStateBackNoop 1).lcd_encoder = 9 ∧
    ¬ (menu_back menuStateBackNoop 1).lcd_encoder = 5 ∧
    (menu_back menuStateBackNoop 1).menu_data = [1, 1, 1, 1] ∧
    (menu_back menuStateBackNoop 1).fb = 0 := by
  decide

/-- `menu_goto` onto the already-current screen is the identity (helper). -/
theorem menu_goto_self (m : MenuState) (menu : Nat) (enc : Int) (f r : Bool)
    (h : m.menu_menu = menu) : menu_goto m menu enc f r = m := by
  simp [menu_goto, h]

/-- `menu_goto` onto a different screen with feedback and reset requested
(the combination used by `menu_back`) in record form (helper). -/
theorem menu_goto_trans (m : MenuState) (menu : Nat) (enc : Int)
    (h : m.menu_menu ≠ menu) :
    menu_goto m menu enc true true =
      { m with menu_menu := menu, lcd_encoder := enc,
               menu_data := List.replicate m.menu_data.length 0,
               fb := m.fb + 1 } := by
  simp [menu_goto, h]

/-- Claim C6 as amended: `back(n)` at depth `d` sets the depth to
`max(d-n, 0)` and hands the frame stored at that resulting depth to
`menu_goto`; when the frame's screen differs from the current screen this
transitions to it, restores the cursor position saved at push time, clears
scratch and issues feedback, but when the frame's screen equals the current
screen the inner `menu_goto` is a no-op, so only the depth changes and the
cursor and scratch keep their current values. -/
theorem C6_menu_back_amended (m : MenuState) (n : Nat)
    (_hlen : m.menu_stack.length = MENU_DEPTH_MAX)
    (_hd : m.menu_depth - n < MENU_DEPTH_MAX) :
    (menu_back m n).menu_depth = m.menu_depth - n ∧
    ((m.menu_stack.getD (m.menu_depth - n) { menu := 0, position := 0 }).menu
        ≠ m.menu_menu →
      (menu_back m n).menu_menu =
        (m.menu_stack.getD (m.menu_depth - n) { menu := 0, position := 0 }).menu ∧
      (menu_back m n).lcd_encoder =
        (m.menu_stack.getD (m.menu_depth - n) { menu := 0, position := 0 }).position ∧
      (menu_back m n).menu_data = List.replicate m.menu_data.length 0 ∧
      (menu_back m n).fb = m.fb + 1) ∧
    ((m.menu_stack.getD (m.menu_depth - n) { menu := 0, position := 0 }).menu
        = m.menu_menu →
      menu_back m n = { m with menu_depth := m.menu_depth - n }) := by
  have hdd : (if m.menu_depth > n then m.menu_depth - n else 0) = m.menu_depth - n := by
    split <;> omega
  have hmb : menu_back m n =
      menu_goto { m with menu_depth := m.menu_depth - n }
        ((m.menu_stack.getD (m.menu_depth - n) { menu := 0, position := 0 }).menu)
        ((m.menu_stack.getD (m.menu_depth - n) { menu := 0, position := 0 }).position)
        true true := by
    simp [menu_back, hdd]
  by_cases hc : (m.menu_stack.getD (m.menu_depth - n)
      { menu := 0, position := 0 }).menu = m.menu_menu
  · have hc1 : ({ m with menu_depth := m.menu_depth - n } : MenuState).menu_menu
        = (m.menu_stack.getD (m.menu_depth - n) { menu := 0, position := 0 }).menu :=
      hc.symm
    rw [hmb, menu_goto_self _ _ _ _ _ hc1]
    exact ⟨rfl, fun h => absurd hc h, fun _ => rfl⟩
  · have hc2 : ({ m with menu_depth := m.menu_depth - n } : MenuState).menu_menu
        ≠ (m.menu_stack.getD (m.menu_depth - n) { menu := 0, position := 0 }).menu :=
      fun hh => hc hh.symm
    rw [hmb, menu_goto_trans _ _ _ hc2]
    exact ⟨rfl, fun _ => ⟨rfl, rfl, rfl, rfl⟩, fun h => absurd h hc⟩

/-- Witness for C6 (amended) on `menuStateBackTrans`: the frame `{2, 5}`
names a screen different from the current screen 7, so `menu_back(1)` pops
to depth 0, transitions to screen 2, restores cursor 5, clears scratch and
issues feedback. -/
theorem C6_witness :
    (menu_back menuStateBackTrans 1).menu_depth = 0 ∧
    (menu_back menuStateBackTrans 1).menu_menu = 2 ∧
    (menu_back menuStateBackTrans 1).lcd_encoder = 5 ∧
    (menu_back menuStateBackTrans 1).menu_data = [0, 0, 0, 0] ∧
    (menu_back menuStateBackTrans 1).fb = 1 := by
  have h := C6_menu_back_amended menuStateBackTrans 1 (by decide) (by decide)
  have h2 := h.2.1 (by decide)
  exact ⟨h.1, h2.1, h2.2.1, h2.2.2.1, h2.2.2.2⟩

/-! ## Claim C8: menu_end -/

/-- Counterexample to claim C8 as stated: in `menuStateOverrun` (3 slots
assigned, cursor overran to 5, no redraw pending, 4-row display) `menu_end`
clamps the cursor to the last slot (2) and beeps, but does NOT force a
redraw: `lcd_draw_update` stays 0. -/
theorem C8_counterexample :
    (menu_end 4 menuStateOverrun).lcd_encoder = 2 ∧
    (menu_end 4 menuStateOverrun).beeps = menuStateOverrun.beeps + 1 ∧
    (menu_end 4 menuStateOverrun).lcd_draw_update = 0 ∧
    ¬ (menu_end 4 menuStateOverrun).lcd_draw_update = 1 := by
  decide

/-- Claim C8 as amended: if the cursor is at or past the number of item
slots assigned during the frame, `menu_end` clamps it back to the last
assigned slot and issues an audible error cue, but does not itself change
the redraw flag; only when the (possibly clamped) cursor sits at or below
`scroll_top + H` does it advance `scroll_top` so the cursor becomes the last
visible row and force a full redraw (also rewinding the drawing line and
row for the redraw). -/
theorem C8_menu_end_amended (H : Nat) (m : MenuState) :
    (menu_end H m).lcd_encoder = menu_end_enc m ∧
    (m.lcd_encoder ≥ (m.menu_item : Int) → (menu_end H m).beeps = m.beeps + 1) ∧
    (m.lcd_encoder < (m.menu_item : Int) → (menu_end H m).beeps = m.beeps) ∧
    ((menu_end_enc m % 256).toNat < m.menu_top + H →
      (menu_end H m).lcd_draw_update = m.lcd_draw_update ∧
      (menu_end H m).menu_top = m.menu_top ∧
      (menu_end H m).menu_line = m.menu_line ∧
      (menu_end H m).menu_row = m.menu_row) ∧
    ((menu_end_enc m % 256).toNat ≥ m.menu_top + H →
      (menu_end H m).menu_top = ((menu_end_enc m - (H : Int) + 1) % 256).toNat ∧
      (menu_end H m).lcd_draw_update = 1 ∧
      (menu_end H m).menu_line
        = (((menu_end_enc m - (H : Int) + 1) % 256).toNat + 255) % 256 ∧
      (menu_end H m).menu_row = 255) := by
  simp only [menu_end, menu_end_enc, ge_iff_le]
  split_ifs with h1 h2 h2 <;> simp_all

/-- Witness for C8: on `menuStateOverrun` the clamp fires (beep, cursor to
2) with the redraw flag untouched at 0; on `menuStateScroll` (cursor 6 below
a 4-row window starting at 0) the scroll branch fires: `menu_top` becomes 3
and a full redraw is forced. -/
theorem C8_witness :
    (menu_end 4 menuStateOverrun).beeps = 1 ∧
    (menu_end 4 menuStateOverrun).lcd_draw_update = 0 ∧
    (menu_end 4 menuStateScroll).menu_top = 3 ∧
    (menu_end 4 menuStateScroll).lcd_draw_update = 1 := by
  have h1 := C8_menu_end_amended 4 menuStateOverrun
  have h2 := C8_menu_end_amended 4 menuStateScroll
  exact ⟨h1.2.1 (by decide), (h1.2.2.2.1 (by decide)).1,
    (h2.2.2.2.2 (by decide)).1, (h2.2.2.2.2 (by decide)).2.1⟩

/-! ## Claim C9: menu_start -/

/-- Counterexample to claim C9 as stated: a huge positive encoder excursion
(`0x8001`) is reset to 0 by `menu_start`, but with NO audible error cue —
the beep counter stays 0, so "out-of-range ... accompanied by an audible
error cue" fails for the huge-positive case. -/
theorem C9_counterexample :
    (menu_start true menuStateHuge).lcd_encoder = 0 ∧
    (menu_start true menuStateHuge).beeps = 0 ∧
    ¬ (menu_start true menuStateHuge).beeps = menuStateHuge.beeps + 1 := by
  decide

/-- Claim C9 as amended: `menu_start` resets a negative cursor to 0 with an
audible error cue; it resets a huge positive excursion (above `0x8000`) to 0
silently; an in-range cursor is kept; in every case the drawing line is set
to the (possibly updated) `scroll_top` and the latched click state is
captured into the click flag. -/
theorem C9_menu_start_amended (clicked : Bool) (m : MenuState) :
    (m.lcd_encoder < 0 →
      (menu_start clicked m).lcd_encoder = 0 ∧
      (menu_start clicked m).beeps = m.beeps + 1) ∧
    (m.lcd_encoder > 0x8000 →
      (menu_start clicked m).lcd_encoder = 0 ∧
      (menu_start clicked m).beeps = m.beeps) ∧
    (0 ≤ m.lcd_encoder → m.lcd_encoder ≤ 0x8000 →
      (menu_start clicked m).lcd_encoder = m.lcd_encoder ∧
      (menu_start clicked m).beeps = m.beeps) ∧
    (menu_start clicked m).menu_line = (menu_start clicked m).menu_top ∧
    (menu_start clicked m).menu_clicked = clicked := by
  simp only [menu_start]
  split_ifs <;> simp_all <;> omega

/-- Witness for C9: a negative cursor (-3) is reset to 0 with a beep, the
drawing line equals the scroll top and the click latch is captured. -/
theorem C9_witness :
    (menu_start true menuStateNeg).lcd_encoder = 0 ∧
    (menu_start true menuStateNeg).beeps = 1 ∧
    (menu_start true menuStateNeg).menu_line = (menu_start true menuStateNeg).menu_top ∧
    (menu_start true menuStateNeg).menu_clicked = true := by
  have h := C9_menu_start_amended true menuStateNeg
  exact ⟨(h.1 (by decide)).1, (h.1 (by decide)).2, h.2.2.2.1, h.2.2.2.2⟩

/-! ## Claim C3: item primitives and the slot counter -/

/-- `menu_goto` never touches the slot counter (helper). -/
theorem menu_goto_menu_item (m : MenuState) (menu : Nat) (enc : Int) (f r : Bool) :
    (menu_goto m menu enc f r).menu_item = m.menu_item := by
  simp [menu_goto, apply_ite MenuState.menu_item]

/-- `menu_submenu` never touches the slot counter (helper). -/
theorem menu_submenu_menu_item (m : MenuState) (s : Nat) :
    (menu_submenu m s).menu_item = m.menu_item := by
  simp [menu_submenu, menu_goto_menu_item, apply_ite MenuState.menu_item]

/-- `menu_back` never touches the slot counter (helper). -/
theorem menu_back_menu_item (m : MenuState) (n : Nat) :
    (menu_back m n).menu_item = m.menu_item := by
  simp [menu_back, menu_goto_menu_item]

/-- `menu_back1` never touches the slot counter (helper). -/
theorem menu_back1_menu_item (m : MenuState) :
    (menu_back1 m).menu_item = m.menu_item :=
  menu_back_menu_item m 1

/-- The shared shape of every item primitive on the paths that do not
activate: it evaluates to the slot advance with return value 0 (helper). -/
theorem menu_item_nonactivated (m : MenuState) (X : MenuState × Nat)
    (h : ¬ menu_item_activated m) :
    (if m.menu_item = m.menu_line then
        if m.menu_clicked = true ∧ m.lcd_encoder = (m.menu_item : Int) then X
        else (menu_item_inc m, 0)
      else (menu_item_inc m, 0)) = (menu_item_inc m, 0) := by
  unfold menu_item_activated at h
  by_cases h1 : m.menu_item = m.menu_line
  · rw [if_pos h1, if_neg]
    intro hc
    exact h ⟨h1, hc.1, hc.2⟩
  · rw [if_neg h1]

/-- Counterexample to claim C3 as stated: in `menuStateClick` the first item
primitive of the frame is under the cursor with a click latched, so
`menu_item_text_P` activates, returns 1, and returns WITHOUT incrementing
the slot counter — `menu_item` stays 0 instead of becoming 1. -/
theorem C3_counterexample :
    (menu_item_text_P menuStateClick).2 = 1 ∧
    (menu_item_text_P menuStateClick).1.menu_item = menuStateClick.menu_item ∧
    ¬ (menu_item_text_P menuStateClick).1.menu_item
        = (menuStateClick.menu_item + 1) % 256 := by
  decide

/-- Claim C3 as amended: every item primitive increments the slot counter
exactly once and returns 0 whenever the call does not activate — regardless
of redraw state, click state or cursor position — and `menu_item_dummy`
increments unconditionally; but a call that activates (slot under cursor,
click latched) returns 1 and leaves the slot counter unchanged (the screen
is expected to short-circuit after an activation).  Hence on every frame in
which no item activates, the i-th of k unconditional primitive calls owns
slot i. -/
theorem C3_item_slot_amended (m : MenuState) (submenu : Nat)
    (func : Option (MenuState → MenuState)) (hasGcode : Bool) :
    (menu_item_dummy m).menu_item = (m.menu_item + 1) % 256 ∧
    (¬ menu_item_activated m →
      menu_item_text_P m = (menu_item_inc m, 0) ∧
      menu_item_submenu_P m submenu = (menu_item_inc m, 0) ∧
      menu_item_back_P m = (menu_item_inc m, 0) ∧
      menu_item_function_P m func = (menu_item_inc m, 0) ∧
      menu_item_function_param_P m func = (menu_item_inc m, 0) ∧
      menu_item_gcode_P m hasGcode = (menu_item_inc m, 0)) ∧
    (menu_item_activated m →
      (menu_item_text_P m).2 = 1 ∧
      (menu_item_text_P m).1.menu_item = m.menu_item ∧
      (menu_item_submenu_P m submenu).2 = 1 ∧
      (menu_item_submenu_P m submenu).1.menu_item = m.menu_item ∧
      (menu_item_back_P m).2 = 1 ∧
      (menu_item_back_P m).1.menu_item = m.menu_item ∧
      (menu_item_function_P m func).2 = 1 ∧
      (menu_item_function_P m none).1.menu_item = m.menu_item ∧
      (menu_item_gcode_P m hasGcode).2 = 1 ∧
      (menu_item_gcode_P m hasGcode).1.menu_item = m.menu_item) := by
  refine ⟨rfl, fun h => ?_, fun h => ?_⟩
  · exact ⟨menu_item_nonactivated m _ h, menu_item_nonactivated m _ h,
      menu_item_nonactivated m _ h, menu_item_nonactivated m _ h,
      menu_item_nonactivated m _ h, menu_item_nonactivated m _ h⟩
  · obtain ⟨h1, h2, h3⟩ := h
    have hx : m.menu_clicked = true ∧ m.lcd_encoder = (m.menu_item : Int) := ⟨h2, h3⟩
    have ht : menu_item_text_P m = menu_item_ret m := by
      unfold menu_item_text_P
      rw [if_pos h1, if_pos hx]
    have hs : menu_item_submenu_P m submenu = menu_item_ret (menu_submenu m submenu) := by
      unfold menu_item_submenu_P
      rw [if_pos h1, if_pos hx]
    have hb : menu_item_back_P m = menu_item_ret (menu_back1 m) := by
      unfold menu_item_back_P
      rw [if_pos h1, if_pos hx]
    have hg : menu_item_gcode_P m hasGcode
        = menu_item_ret (if hasGcode then { m with cmds := m.cmds + 1 } else m) := by
      unfold menu_item_gcode_P
      rw [if_pos h1, if_pos hx]
    have hf2 : (menu_item_function_P m func).2 = 1 := by
      unfold menu_item_function_P
      rw [if_pos h1, if_pos hx]
      rfl
    have hfn : (menu_item_function_P m none).1.menu_item = m.menu_item := by
      unfold menu_item_function_P
      rw [if_pos h1, if_pos hx]
      rfl
    refine ⟨by rw [ht]; rfl, by rw [ht]; rfl, by rw [hs]; rfl, ?_, by rw [hb]; rfl,
      ?_, hf2, hfn, by rw [hg]; rfl, ?_⟩
    · rw [hs]
      exact menu_submenu_menu_item m submenu
    · rw [hb]
      exact menu_back1_menu_item m
    · rw [hg]
      cases hasGcode <;> rfl

/-- Witness for C3: with no click latched (`menuState0`) the text primitive
advances the slot and returns 0; with slot 0 activated (`menuStateClick`)
it returns 1. -/
theorem C3_witness :
    menu_item_text_P menuState0 = (menu_item_inc menuState0, 0) ∧
    (menu_item_text_P menuStateClick).2 = 1 := by
  have h0 := C3_item_slot_amended menuState0 2 none true
  have h1 := C3_item_slot_amended menuStateClick 2 none true
  exact ⟨(h0.2.1 (by decide)).1, (h1.2.2 (by decide)).1⟩

/-! ## Claim C2: the numeric editor -/

/-- Counterexample to claim C2 as stated: on a frame with NO pending redraw
(`lcd_draw_update = 0`) the editor does not clamp, so a click commits the
raw cursor 11 through the borrowed target even though the bounds are
`[0, 10]` — a value outside the bounds is stored. -/
theorem C2_counterexample :
    (_menu_edit_P
      { editLabel := 0, editValue := 0, minEditValue := 0, maxEditValue := 10 }
      0 true 11).1 = 11 ∧
    (_menu_edit_P
      { editLabel := 0, editValue := 0, minEditValue := 0, maxEditValue := 10 }
      0 true 11).2 = some 11 ∧
    ¬ ((11 : Int) ≤
      ({ editLabel := 0, editValue := 0, minEditValue := 0, maxEditValue := 10 }
        : menu_data_edit_t).maxEditValue) := by
  decide

/-- Claim C2 as amended: the editor clamps the shared cursor into
`[minEditValue, maxEditValue]` only on frames with a pending redraw
(given `min ≤ max`); on frames without a pending redraw the cursor is left
as-is.  A click always commits the current (post-clamp, if any) cursor
through the borrowed target, so the committed value is in range exactly
when the frame had a pending redraw — a clickless frame stores nothing. -/
theorem C2_menu_edit_amended (md : menu_data_edit_t) (d : Nat) (c : Bool)
    (enc : Int) (hb : md.minEditValue ≤ md.maxEditValue) :
    (d ≠ 0 →
      md.minEditValue ≤ (_menu_edit_P md d c enc).1 ∧
      (_menu_edit_P md d c enc).1 ≤ md.maxEditValue) ∧
    (d = 0 → (_menu_edit_P md d c enc).1 = enc) ∧
    (c = true → (_menu_edit_P md d c enc).2 = some (_menu_edit_P md d c enc).1) ∧
    (c = false → (_menu_edit_P md d c enc).2 = none) := by
  refine ⟨fun hd => ?_, fun hd => ?_, fun hc => ?_, fun hc => ?_⟩
  · simp only [_menu_edit_P, if_pos hd]
    split_ifs <;> constructor <;> omega
  · simp [_menu_edit_P, hd]
  · simp [_menu_edit_P, hc]
  · simp [_menu_edit_P, hc]

/-- Witness for C2 (amended): with bounds `[0, 10]`, a pending redraw and
cursor 11, the cursor is clamped into range and the click commits the
clamped (in-range) value. -/
theorem C2_witness :
    0 ≤ (_menu_edit_P
      { editLabel := 0, editValue := 0, minEditValue := 0, maxEditValue := 10 }
      1 true 11).1 ∧
    (_menu_edit_P
      { editLabel := 0, editValue := 0, minEditValue := 0, maxEditValue := 10 }
      1 true 11).1 ≤ 10 ∧
    (_menu_edit_P
      { editLabel := 0, editValue := 0, minEditValue := 0, maxEditValue := 10 }
      1 true 11).2 = some (_menu_edit_P
      { editLabel := 0, editValue := 0, minEditValue := 0, maxEditValue := 10 }
      1 true 11).1 := by
  have h := C2_menu_edit_amended
    { editLabel := 0, editValue := 0, minEditValue := 0, maxEditValue := 10 }
    1 true 11 (by decide)
  exact ⟨(h.1 (by decide)).1, (h.1 (by decide)).2, h.2.2.1 rfl⟩
